import Mathlib

/-!
Shallow embedding of `ros_gz_sim/launch/ros_gz_sim.launch.py` from the
`nobleo/ros_gz` repository, together with proofs of the claims the
specification makes about the launch-description builder.

The Python file is declarative wiring over the ROS 2 launch DSL.  We embed
the fragment of that DSL the file uses (text substitutions, launch
configuration references, package-share lookups, path joins, argument
declarations, launch-file inclusions) and the builder
`generate_launch_description` itself, then give an explicit resolution
semantics parameterised by the argument overrides supplied at invocation
and by an opaque package-share resolver.
-/

namespace RosGz

/-- The substitution fragment used by the launch file:
`TextSubstitution`, `LaunchConfiguration`, `FindPackageShare` and
`PathJoinSubstitution` (the latter over a list of substitutions). -/
inductive Substitution where
  | text (s : String)
  | launchConfiguration (name : String)
  | findPackageShare (pkg : String)
  | pathJoin (parts : List Substitution)

/-- A `DeclareLaunchArgument` default value: the Python API accepts either a
plain string literal or a substitution object such as a `TextSubstitution`
with empty text. -/
inductive ArgDefault where
  | literal (s : String)
  | subst (sub : Substitution)

/-- Models `DeclareLaunchArgument(name, default_value, description)`. -/
structure DeclareLaunchArgument where
  name : String
  default_value : ArgDefault
  description : String

/-- Models `PythonLaunchDescriptionSource([...])`: a list of substitutions whose
resolved concatenation locates the included launch file. -/
structure PythonLaunchDescriptionSource where
  sources : List Substitution

/-- Models `IncludeLaunchDescription(source, launch_arguments=[...])`. -/
structure IncludeLaunchDescription where
  source : PythonLaunchDescriptionSource
  launch_arguments : List (String × Substitution)

/-- An action added to the launch description: either an argument
declaration or a nested inclusion. -/
inductive Action where
  | declare (d : DeclareLaunchArgument)
  | includeDesc (i : IncludeLaunchDescription)

/-- Models `LaunchDescription()`: an ordered list of actions. -/
structure LaunchDescription where
  actions : List Action

/-- Models `ld.add_action(a)`: appends an action at the end. -/
def LaunchDescription.add_action (ld : LaunchDescription) (a : Action) :
    LaunchDescription :=
  { actions := ld.actions ++ [a] }

/-! ### The builder, transcribed from `generate_launch_description` -/

/-- Transcribes `config_file = LaunchConfiguration("config_file")`. -/
def config_file : Substitution := .launchConfiguration "config_file"

/-- Transcribes `container_name = LaunchConfiguration("container_name")`. -/
def container_name : Substitution := .launchConfiguration "container_name"

/-- Transcribes `namespace = LaunchConfiguration("namespace")`; the word
namespace is a Lean keyword, hence the trailing underscore. -/
def namespace_ : Substitution := .launchConfiguration "namespace"

/-- Transcribes `use_composition = LaunchConfiguration("use_composition")`. -/
def use_composition : Substitution := .launchConfiguration "use_composition"

/-- Transcribes `use_respawn = LaunchConfiguration("use_respawn")`. -/
def use_respawn : Substitution := .launchConfiguration "use_respawn"

/-- Transcribes `log_level = LaunchConfiguration("log_level")`. -/
def log_level : Substitution := .launchConfiguration "log_level"

/-- Transcribes `world_sdf_file = LaunchConfiguration("world_sdf_file")`. -/
def world_sdf_file : Substitution := .launchConfiguration "world_sdf_file"

/-- Transcribes `world_sdf_string = LaunchConfiguration("world_sdf_string")`. -/
def world_sdf_string : Substitution := .launchConfiguration "world_sdf_string"

/-- Transcribes `declare_config_file_cmd`. -/
def declare_config_file_cmd : DeclareLaunchArgument :=
  { name := "config_file", default_value := .literal "",
    description := "YAML config file" }

/-- Transcribes `declare_container_name_cmd`. -/
def declare_container_name_cmd : DeclareLaunchArgument :=
  { name := "container_name", default_value := .literal "ros_gz_container",
    description := "Name of container that nodes will load in if use composition" }

/-- Transcribes `declare_namespace_cmd`. -/
def declare_namespace_cmd : DeclareLaunchArgument :=
  { name := "namespace", default_value := .literal "",
    description := "Top-level namespace" }

/-- Transcribes `declare_use_composition_cmd`. -/
def declare_use_composition_cmd : DeclareLaunchArgument :=
  { name := "use_composition", default_value := .literal "False",
    description := "Use composed bringup if True" }

/-- Transcribes `declare_use_respawn_cmd`. -/
def declare_use_respawn_cmd : DeclareLaunchArgument :=
  { name := "use_respawn", default_value := .literal "False",
    description := "Whether to respawn if a node crashes. Applied when composition is disabled." }

/-- Transcribes `declare_log_level_cmd`. -/
def declare_log_level_cmd : DeclareLaunchArgument :=
  { name := "log_level", default_value := .literal "info",
    description := "log level" }

/-- Transcribes `declare_world_sdf_file_cmd`: note the default is a
`TextSubstitution` with empty text, a substitution object, not a string
literal. -/
def declare_world_sdf_file_cmd : DeclareLaunchArgument :=
  { name := "world_sdf_file", default_value := .subst (.text ""),
    description := "Path to the SDF world file" }

/-- Transcribes `declare_world_sdf_string_cmd`: the default is a
`TextSubstitution` with empty text. -/
def declare_world_sdf_string_cmd : DeclareLaunchArgument :=
  { name := "world_sdf_string", default_value := .subst (.text ""),
    description := "SDF world string" }

/-- Transcribes `bridge_description`: includes
`<share of ros_gz_bridge>/launch/ros_gz_bridge.launch.py` forwarding six
configuration references. -/
def bridge_description : IncludeLaunchDescription :=
  { source :=
      { sources :=
          [.pathJoin [.findPackageShare "ros_gz_bridge",
                      .text "launch",
                      .text "ros_gz_bridge.launch.py"]] },
    launch_arguments :=
      [("config_file", config_file),
       ("container_name", container_name),
       ("namespace", namespace_),
       ("use_composition", use_composition),
       ("use_respawn", use_respawn),
       ("log_level", log_level)] }

/-- Transcribes `gzserver_description`: includes
`<share of ros_gz_sim>/launch/gz_server.launch.py` forwarding three
configuration references. -/
def gzserver_description : IncludeLaunchDescription :=
  { source :=
      { sources :=
          [.pathJoin [.findPackageShare "ros_gz_sim",
                      .text "launch",
                      .text "gz_server.launch.py"]] },
    launch_arguments :=
      [("world_sdf_file", world_sdf_file),
       ("world_sdf_string", world_sdf_string),
       ("use_composition", use_composition)] }

/-- Transcribes `generate_launch_description()`: builds the empty description and
appends the eight declarations followed by the two inclusions, exactly in
the order of the `ld.add_action` calls in the source. -/
def generate_launch_description : LaunchDescription :=
  (((((((((({ actions := [] } : LaunchDescription).add_action
    (.declare declare_config_file_cmd)).add_action
    (.declare declare_container_name_cmd)).add_action
    (.declare declare_namespace_cmd)).add_action
    (.declare declare_use_composition_cmd)).add_action
    (.declare declare_use_respawn_cmd)).add_action
    (.declare declare_log_level_cmd)).add_action
    (.declare declare_world_sdf_file_cmd)).add_action
    (.declare declare_world_sdf_string_cmd)).add_action
    (.includeDesc bridge_description)).add_action
    (.includeDesc gzserver_description)

/-! ### Resolution semantics

An invocation supplies overrides (a partial map from argument names to
strings); the host runner resolves each `LaunchConfiguration` to the
override when present, otherwise to the declared default.  Package-share
lookups are resolved by an opaque resolver `share`. -/

mutual

/-- Resolve a substitution under a configuration context `ctx` and a
package-share resolver `share`.  `PathJoinSubstitution` joins its resolved
parts with the path separator. -/
def resolveSubst (ctx share : String → String) : Substitution → String
  | .text s => s
  | .launchConfiguration n => ctx n
  | .findPackageShare pkg => share pkg
  | .pathJoin parts => String.intercalate "/" (resolveSubstList ctx share parts)

/-- Resolve each substitution of a list. -/
def resolveSubstList (ctx share : String → String) : List Substitution → List String
  | [] => []
  | s :: rest => resolveSubst ctx share s :: resolveSubstList ctx share rest

end

/-- Resolve a declared default value under the same semantics. -/
def resolveDefault (ctx share : String → String) : ArgDefault → String
  | .literal s => s
  | .subst sub => resolveSubst ctx share sub

/-- The default value declared for `name` in the built description, if any. -/
def lookupDefault (name : String) : Option ArgDefault :=
  generate_launch_description.actions.findSome? fun a =>
    match a with
    | .declare d => if d.name = name then some d.default_value else none
    | .includeDesc _ => none

/-- The configuration context induced by an invocation: the override when
one was supplied, otherwise the declared default (every default in this
file is context-free, see `defaults_context_free`, so resolving it under
the empty context is faithful). -/
def configValue (ov : String → Option String) (share : String → String)
    (name : String) : String :=
  match ov name with
  | some v => v
  | none =>
    match lookupDefault name with
    | some d => resolveDefault (fun _ => "") share d
    | none => ""

/-- Look up a forwarded binding by name in a keyword-argument list. -/
def lookupArg : List (String × Substitution) → String → Option Substitution
  | [], _ => none
  | (k, v) :: rest, n => if k = n then some v else lookupArg rest n

/-- The string an inclusion forwards for `argName` under an invocation,
when that binding exists. -/
def forwardedValue (ov : String → Option String) (share : String → String)
    (i : IncludeLaunchDescription) (argName : String) : Option String :=
  (lookupArg i.launch_arguments argName).map
    (resolveSubst (configValue ov share) share)

/-- All bindings of an inclusion, resolved under an invocation. -/
def resolvedArgs (ov : String → Option String) (share : String → String)
    (i : IncludeLaunchDescription) : List (String × String) :=
  i.launch_arguments.map fun p =>
    (p.1, resolveSubst (configValue ov share) share p.2)

/-- Names of the arguments declared by a description, in order. -/
def declaredNames (ld : LaunchDescription) : List String :=
  ld.actions.filterMap fun a =>
    match a with
    | .declare d => some d.name
    | .includeDesc _ => none

mutual

/-- The configuration names a substitution refers to. -/
def configRefs : Substitution → List String
  | .text _ => []
  | .launchConfiguration n => [n]
  | .findPackageShare _ => []
  | .pathJoin parts => configRefsList parts

/-- The configuration names a list of substitutions refers to. -/
def configRefsList : List Substitution → List String
  | [] => []
  | s :: rest => configRefs s ++ configRefsList rest

end

/-- The configuration names an action refers to: for an inclusion, those of
its source and of every forwarded binding; a declaration refers to none. -/
def refsOfAction : Action → List String
  | .declare _ => []
  | .includeDesc i =>
      configRefsList i.source.sources ++
        configRefsList (i.launch_arguments.map Prod.snd)

/-- Every default declared in this file resolves independently of the
configuration context. -/
theorem defaults_context_free (name : String) (d : ArgDefault)
    (h : lookupDefault name = some d) (ctx ctx' share : String → String) :
    resolveDefault ctx share d = resolveDefault ctx' share d := by
  revert h
  unfold lookupDefault generate_launch_description
  by_cases h1 : "config_file" = name <;>
    by_cases h2 : "container_name" = name <;>
    by_cases h3 : "namespace" = name <;>
    by_cases h4 : "use_composition" = name <;>
    by_cases h5 : "use_respawn" = name <;>
    by_cases h6 : "log_level" = name <;>
    by_cases h7 : "world_sdf_file" = name <;>
    by_cases h8 : "world_sdf_string" = name <;>
    simp [LaunchDescription.add_action, List.findSome?,
      declare_config_file_cmd, declare_container_name_cmd,
      declare_namespace_cmd, declare_use_composition_cmd,
      declare_use_respawn_cmd, declare_log_level_cmd,
      declare_world_sdf_file_cmd, declare_world_sdf_string_cmd,
      h1, h2, h3, h4, h5, h6, h7, h8] <;>
    rintro rfl <;> rfl

/-- Whether a declared default is a plain string literal (as opposed to a
substitution object). -/
def ArgDefault.isLiteral : ArgDefault → Bool
  | .literal _ => true
  | .subst _ => false

/-- Follows the wording of the specification: an inclusion target counts as
a package-share lookup when its source is a single path join whose first
component is a package-share resolution and whose remaining components are
plain relative path pieces — never a literal filesystem path. -/
def isPackageShareLookup (src : PythonLaunchDescriptionSource) : Bool :=
  match src.sources with
  | [Substitution.pathJoin (Substitution.findPackageShare _ :: rest)] =>
      rest.all fun s =>
        match s with
        | Substitution.text _ => true
        | _ => false
  | _ => false

/-! ### Helper lemmas shared by the claim proofs -/

/-- The server inclusion forwards for `world_sdf_string` exactly the
configuration value of `world_sdf_string`. -/
theorem forwarded_gz_string (ov : String → Option String)
    (share : String → String) :
    forwardedValue ov share gzserver_description "world_sdf_string" =
      some (configValue ov share "world_sdf_string") := rfl

/-- The server inclusion forwards for `world_sdf_file` exactly the
configuration value of `world_sdf_file`. -/
theorem forwarded_gz_file (ov : String → Option String)
    (share : String → String) :
    forwardedValue ov share gzserver_description "world_sdf_file" =
      some (configValue ov share "world_sdf_file") := rfl

/-- A configuration value only depends on the override supplied for its own
name. -/
theorem configValue_congr (ov₁ ov₂ : String → Option String)
    (share : String → String) (n : String) (h : ov₁ n = ov₂ n) :
    configValue ov₁ share n = configValue ov₂ share n := by
  unfold configValue
  rw [h]

/-- With no override supplied for `world_sdf_string`, its configuration
value is the resolved default, the empty string. -/
theorem configValue_ws_string_default (ov : String → Option String)
    (share : String → String) (h : ov "world_sdf_string" = none) :
    configValue ov share "world_sdf_string" = "" := by
  unfold configValue
  rw [h]
  rfl

/-- With no override supplied for `world_sdf_file`, its configuration
value is the resolved default, the empty string. -/
theorem configValue_ws_file_default (ov : String → Option String)
    (share : String → String) (h : ov "world_sdf_file" = none) :
    configValue ov share "world_sdf_file" = "" := by
  unfold configValue
  rw [h]
  rfl

/-! ### The claims -/

/-- C1: the builder returns a launch description whose action list has
exactly 10 entries in a fixed deterministic order — the eight argument
declarations first, in the order `config_file`, `container_name`,
`namespace`, `use_composition`, `use_respawn`, `log_level`,
`world_sdf_file`, `world_sdf_string`, followed by the bridge inclusion,
followed by the server inclusion; the builder takes no input, so this holds
for every invocation. -/
theorem claim_C1 :
    generate_launch_description.actions =
      [.declare declare_config_file_cmd,
       .declare declare_container_name_cmd,
       .declare declare_namespace_cmd,
       .declare declare_use_composition_cmd,
       .declare declare_use_respawn_cmd,
       .declare declare_log_level_cmd,
       .declare declare_world_sdf_file_cmd,
       .declare declare_world_sdf_string_cmd,
       .includeDesc bridge_description,
       .includeDesc gzserver_description] ∧
    generate_launch_description.actions.length = 10 ∧
    declaredNames generate_launch_description =
      ["config_file", "container_name", "namespace", "use_composition",
       "use_respawn", "log_level", "world_sdf_file", "world_sdf_string"] :=
  ⟨rfl, rfl, rfl⟩

/-- C2: with no overrides, each of the eight declared arguments carries
exactly its documented default: both at the declaration level (the declared
default resolves to the documented string under every context) and at the
invocation level (the configuration value of each name under the empty
override map is the documented string). -/
theorem claim_C2 (ctx share : String → String) (ov : String → Option String)
    (hov : ∀ n, ov n = none) :
    resolveDefault ctx share declare_config_file_cmd.default_value = "" ∧
    resolveDefault ctx share declare_container_name_cmd.default_value = "ros_gz_container" ∧
    resolveDefault ctx share declare_namespace_cmd.default_value = "" ∧
    resolveDefault ctx share declare_use_composition_cmd.default_value = "False" ∧
    resolveDefault ctx share declare_use_respawn_cmd.default_value = "False" ∧
    resolveDefault ctx share declare_log_level_cmd.default_value = "info" ∧
    resolveDefault ctx share declare_world_sdf_file_cmd.default_value = "" ∧
    resolveDefault ctx share declare_world_sdf_string_cmd.default_value = "" ∧
    configValue ov share "config_file" = "" ∧
    configValue ov share "container_name" = "ros_gz_container" ∧
    configValue ov share "namespace" = "" ∧
    configValue ov share "use_composition" = "False" ∧
    configValue ov share "use_respawn" = "False" ∧
    configValue ov share "log_level" = "info" ∧
    configValue ov share "world_sdf_file" = "" ∧
    configValue ov share "world_sdf_string" = "" := by
  refine ⟨rfl, rfl, rfl, rfl, rfl, rfl, rfl, rfl, ?_, ?_, ?_, ?_, ?_, ?_, ?_, ?_⟩ <;>
    ·{ unfold configValue
       rw [hov]
       rfl}

/-- C2 witness: instantiated at the empty override map and a trivial
context and share resolver. -/
theorem claim_C2_witness :
    (∀ n : String, (fun _ : String => (none : Option String)) n = none) ∧
    configValue (fun _ => none) (fun _ => "") "container_name" = "ros_gz_container" :=
  ⟨fun _ => rfl,
   (claim_C2 (fun _ => "") (fun _ => "") (fun _ => none) fun _ => rfl).2.2.2.2.2.2.2.2.2.1⟩

/-- C3: the string value of `use_composition`, default or overridden, is
identically forwarded to both the bridge binding and the server binding:
both bindings hold the very same configuration reference, both forward the
single configuration value of `use_composition`, and the two forwarded
values are equal under every invocation. -/
theorem claim_C3 (ov : String → Option String) (share : String → String) :
    lookupArg bridge_description.launch_arguments "use_composition" =
      some use_composition ∧
    lookupArg gzserver_description.launch_arguments "use_composition" =
      some use_composition ∧
    forwardedValue ov share bridge_description "use_composition" =
      some (configValue ov share "use_composition") ∧
    forwardedValue ov share gzserver_description "use_composition" =
      some (configValue ov share "use_composition") ∧
    forwardedValue ov share bridge_description "use_composition" =
      forwardedValue ov share gzserver_description "use_composition" :=
  ⟨rfl, rfl, rfl, rfl, rfl⟩

/-- C4: the bridge inclusion forwards exactly the six arguments
`config_file`, `container_name`, `namespace`, `use_composition`,
`use_respawn` and `log_level`, each bound to its own configuration
reference, and no others. -/
theorem claim_C4 :
    bridge_description.launch_arguments =
      [("config_file", .launchConfiguration "config_file"),
       ("container_name", .launchConfiguration "container_name"),
       ("namespace", .launchConfiguration "namespace"),
       ("use_composition", .launchConfiguration "use_composition"),
       ("use_respawn", .launchConfiguration "use_respawn"),
       ("log_level", .launchConfiguration "log_level")] := rfl

/-- C5: the server inclusion forwards exactly the three arguments
`world_sdf_file`, `world_sdf_string` and `use_composition`, each bound to
its own configuration reference, and no others. -/
theorem claim_C5 :
    gzserver_description.launch_arguments =
      [("world_sdf_file", .launchConfiguration "world_sdf_file"),
       ("world_sdf_string", .launchConfiguration "world_sdf_string"),
       ("use_composition", .launchConfiguration "use_composition")] := rfl

/-- C6: two invocations that differ only in `world_sdf_file` forward the
same value for `world_sdf_string` in the server binding — and the default
empty string when it is not overridden; symmetrically, overriding
`world_sdf_string` alone does not change the forwarded `world_sdf_file`. -/
theorem claim_C6 (ov₁ ov₂ : String → Option String) (share : String → String) :
    ((∀ n, n ≠ "world_sdf_file" → ov₁ n = ov₂ n) →
      forwardedValue ov₁ share gzserver_description "world_sdf_string" =
        forwardedValue ov₂ share gzserver_description "world_sdf_string" ∧
      (ov₁ "world_sdf_string" = none →
        forwardedValue ov₁ share gzserver_description "world_sdf_string" =
          some "")) ∧
    ((∀ n, n ≠ "world_sdf_string" → ov₁ n = ov₂ n) →
      forwardedValue ov₁ share gzserver_description "world_sdf_file" =
        forwardedValue ov₂ share gzserver_description "world_sdf_file" ∧
      (ov₁ "world_sdf_file" = none →
        forwardedValue ov₁ share gzserver_description "world_sdf_file" =
          some "")) := by
  constructor
  · intro h
    constructor
    · rw [forwarded_gz_string, forwarded_gz_string,
        configValue_congr ov₁ ov₂ share "world_sdf_string"
          (h "world_sdf_string" (by decide))]
    · intro h0
      rw [forwarded_gz_string, configValue_ws_string_default ov₁ share h0]
  · intro h
    constructor
    · rw [forwarded_gz_file, forwarded_gz_file,
        configValue_congr ov₁ ov₂ share "world_sdf_file"
          (h "world_sdf_file" (by decide))]
    · intro h0
      rw [forwarded_gz_file, configValue_ws_file_default ov₁ share h0]

/-- C6 witness: with `world_sdf_file` overridden to a concrete path and no
other override, against the all-defaults invocation, the forwarded
`world_sdf_string` agrees and equals the empty string. -/
theorem claim_C6_witness :
    forwardedValue (fun n => if n = "world_sdf_file" then some "/tmp/w.sdf" else none)
        (fun p => "/share/" ++ p) gzserver_description "world_sdf_string" =
      forwardedValue (fun _ => none) (fun p => "/share/" ++ p)
        gzserver_description "world_sdf_string" ∧
    forwardedValue (fun n => if n = "world_sdf_file" then some "/tmp/w.sdf" else none)
        (fun p => "/share/" ++ p) gzserver_description "world_sdf_string" =
      some "" := by
  have h := (claim_C6
    (fun n => if n = "world_sdf_file" then some "/tmp/w.sdf" else none)
    (fun _ => none) (fun p => "/share/" ++ p)).1
    (fun n hn => by simp [hn])
  exact ⟨h.1, h.2 (by decide)⟩

/-- C7: the eight declared argument names are pairwise distinct, each is
declared exactly once, and every configuration reference used by either
inclusion names an argument declared strictly earlier in the action list
than that inclusion. -/
theorem claim_C7 :
    (declaredNames generate_launch_description).Nodup ∧
    (generate_launch_description.actions.filterMap fun a =>
        match a with
        | .declare d => some d.name
        | .includeDesc _ => none).length = 8 ∧
    ∀ k, ∀ h : k < generate_launch_description.actions.length,
      ∀ n ∈ refsOfAction (generate_launch_description.actions.get ⟨k, h⟩),
        n ∈ declaredNames { actions := generate_launch_description.actions.take k } := by
  refine ⟨by decide, by decide, ?_⟩
  decide

/-- C7 witness: the bridge inclusion sits at index 8 and its reference to
`config_file` names an argument declared among the first eight actions. -/
theorem claim_C7_witness :
    "config_file" ∈
      declaredNames { actions := generate_launch_description.actions.take 8 } :=
  claim_C7.2.2 8 (by decide) "config_file" (by decide)

/-- C8: the builder performs no validation: every assignment of strings to
the eight arguments — including both world arguments simultaneously empty
or simultaneously set, and non-boolean strings for `use_composition` and
`use_respawn` — is forwarded verbatim and the description is produced
normally; with all defaults the server binding carries
`world_sdf_file = ""` and `world_sdf_string = ""` simultaneously. -/
theorem claim_C8 (v : String → String) (share : String → String) :
    resolvedArgs (fun n => some (v n)) share bridge_description =
      [("config_file", v "config_file"),
       ("container_name", v "container_name"),
       ("namespace", v "namespace"),
       ("use_composition", v "use_composition"),
       ("use_respawn", v "use_respawn"),
       ("log_level", v "log_level")] ∧
    resolvedArgs (fun n => some (v n)) share gzserver_description =
      [("world_sdf_file", v "world_sdf_file"),
       ("world_sdf_string", v "world_sdf_string"),
       ("use_composition", v "use_composition")] ∧
    resolvedArgs (fun _ => none) share gzserver_description =
      [("world_sdf_file", ""), ("world_sdf_string", ""),
       ("use_composition", "False")] :=
  ⟨rfl, rfl, rfl⟩

/-- C9: each inclusion target is a package-share lookup of a package name
joined with a relative path — `ros_gz_bridge` with
`launch/ros_gz_bridge.launch.py` for the bridge, `ros_gz_sim` with
`launch/gz_server.launch.py` for the server — never a literal filesystem
path. -/
theorem claim_C9 :
    bridge_description.source.sources =
      [.pathJoin [.findPackageShare "ros_gz_bridge",
                  .text "launch",
                  .text "ros_gz_bridge.launch.py"]] ∧
    gzserver_description.source.sources =
      [.pathJoin [.findPackageShare "ros_gz_sim",
                  .text "launch",
                  .text "gz_server.launch.py"]] ∧
    isPackageShareLookup bridge_description.source = true ∧
    isPackageShareLookup gzserver_description.source = true :=
  ⟨rfl, rfl, rfl, rfl⟩

/-- C10: the defaults of `world_sdf_file` and `world_sdf_string` are
declared as text-substitution objects, not plain string literals, yet under
substitution resolution each resolves to the empty string — the same
effective default as the literal empty-string defaults of `config_file` and
`namespace`. -/
theorem claim_C10 (ctx share : String → String) :
    declare_world_sdf_file_cmd.default_value = .subst (.text "") ∧
    declare_world_sdf_string_cmd.default_value = .subst (.text "") ∧
    declare_world_sdf_file_cmd.default_value.isLiteral = false ∧
    declare_world_sdf_string_cmd.default_value.isLiteral = false ∧
    declare_config_file_cmd.default_value = .literal "" ∧
    declare_namespace_cmd.default_value = .literal "" ∧
    resolveDefault ctx share declare_world_sdf_file_cmd.default_value =
      resolveDefault ctx share declare_config_file_cmd.default_value ∧
    resolveDefault ctx share declare_world_sdf_string_cmd.default_value =
      resolveDefault ctx share declare_namespace_cmd.default_value ∧
    resolveDefault ctx share declare_world_sdf_file_cmd.default_value = "" ∧
    resolveDefault ctx share declare_world_sdf_string_cmd.default_value = "" :=
  ⟨rfl, rfl, rfl, rfl, rfl, rfl, rfl, rfl, rfl, rfl⟩

end RosGz
